import Mathlib

/-!
Shallow embedding of the Kalshi anomaly detector core:
`backend/app/services/detector.py`, `backend/app/services/kalshi_service.py`,
and the ORM schema `backend/app/models/models.py`.

Conventions used throughout:
* Python floats are modeled as rationals.
* Timestamps are rationals measured in hours, so `timedelta(hours=1)` is `1`
  and `timedelta(days=d)` is `d * 24`.
* Database tables are lists of rows; SQLAlchemy `query(...).first()` is the
  first list element satisfying the filter.
* `np.std` returns the population standard deviation of the sample; since
  square roots are not rational-valued, functions needing it receive the
  value as an argument which theorems constrain by
  `0 ≤ x ∧ x ^ 2 = popVariance sample`.
* JSON detail payloads are modeled opaquely as strings.
-/

namespace KalshiAD

/-- A row of the `trades` table (`models.py`, class `Trade`): all columns the
detector reads (`id` and `trade_value_usd` are never consulted and omitted). -/
structure Trade where
  ticker : String
  trade_id : String
  price : ℚ
  volume : ℤ
  side : String
  timestamp : ℚ
  trader_id : Option String
deriving DecidableEq, Repr

/-- An anomaly record as constructed and consumed by
`AnomalyDetector.log_anomaly` (detector.py lines 286-335).  Note that the ORM
class `Anomaly` in `models.py` (lines 38-49) does NOT declare a `resolved`
column even though the detector both filters on and assigns it; that schema
drift is captured separately by `anomalyModelAttrs` below. -/
structure Anomaly where
  ticker : String
  anomaly_type : String
  score : ℚ
  severity : String
  details : String
  detected_at : ℚ
  resolved : Bool
deriving DecidableEq, Repr

/-- `config["volume_zscore_threshold"]` (detector.py line 32). -/
def volume_zscore_threshold : ℚ := 3

/-- `config["vpin_window_trades"]` (detector.py line 33). -/
def vpin_window_trades : ℕ := 50

/-- `config["whale_threshold_usd"]` (detector.py line 34). -/
def whale_threshold_usd : ℚ := 3000

/-- The severity banding applied on the fresh-insert path of `log_anomaly`
(detector.py lines 313-320). -/
def severity_of (score : ℚ) : String :=
  if 8 ≤ score then "critical"
  else if 7 ≤ score then "high"
  else if 5 ≤ score then "medium"
  else "low"

/-- Numeric order of the severity bands, used to state monotonicity. -/
def severityRank (s : String) : ℕ :=
  if s = "critical" then 3
  else if s = "high" then 2
  else if s = "medium" then 1
  else 0

/-- The dedup filter of `log_anomaly` (detector.py lines 296-305): same
ticker, same type, detected within the last hour, unresolved. -/
def anomalyMatches (now : ℚ) (ticker anomaly_type : String) (a : Anomaly) : Bool :=
  a.ticker == ticker && a.anomaly_type == anomaly_type
    && decide (now - 1 ≤ a.detected_at) && a.resolved == false

/-- The fresh anomaly row built by `log_anomaly` (detector.py lines 322-330). -/
def freshAnomaly (now : ℚ) (ticker anomaly_type : String) (score : ℚ)
    (details : String) : Anomaly :=
  { ticker := ticker
    anomaly_type := anomaly_type
    score := score
    severity := severity_of score
    details := details
    detected_at := now
    resolved := false }

/-- The in-place update applied to an existing matching row
(detector.py lines 307-311): score becomes the max, details are replaced,
every other field -- in particular `severity` -- is left unchanged. -/
def mergeAnomaly (score : ℚ) (details : String) (a : Anomaly) : Anomaly :=
  { a with score := max a.score score, details := details }

/-- `AnomalyDetector.log_anomaly` (detector.py lines 286-335) over a list
model of the `anomalies` table: the first matching unresolved row within one
hour is updated in place, otherwise a fresh row is appended.  Returns the new
table together with the row returned by the Python function. -/
def log_anomaly (now : ℚ) (ticker anomaly_type : String) (score : ℚ)
    (details : String) : List Anomaly → List Anomaly × Anomaly
  | [] =>
    ([freshAnomaly now ticker anomaly_type score details],
      freshAnomaly now ticker anomaly_type score details)
  | a :: rest =>
    if anomalyMatches now ticker anomaly_type a then
      (mergeAnomaly score details a :: rest, mergeAnomaly score details a)
    else
      let r := log_anomaly now ticker anomaly_type score details rest
      (a :: r.1, r.2)

/-- Attributes declared on the ORM class `Anomaly` in `models.py`
(lines 38-49): the columns plus the `market` relationship. -/
def anomalyModelAttrs : List String :=
  ["id", "ticker", "anomaly_type", "score", "severity", "details",
   "detected_at", "market"]

/-- Class attributes referenced by the dedup query of `log_anomaly`
(detector.py lines 296-305). -/
def logAnomalyQueryAttrs : List String :=
  ["ticker", "anomaly_type", "detected_at", "resolved"]

/-- A Python runtime error value. -/
inductive PyError where
  | attributeError (msg : String)
  | typeError (msg : String)
deriving DecidableEq, Repr

/-- The first attribute referenced by a query that the ORM class does not
declare; accessing it raises `AttributeError` when the query is built. -/
def invalidAttr (modelAttrs queryAttrs : List String) : Option String :=
  queryAttrs.find? (fun k => !(modelAttrs.contains k))

/-- `log_anomaly` with Python attribute-resolution semantics: building the
dedup filter evaluates `Anomaly.resolved`, which raises `AttributeError`
when the ORM class declares no such attribute. -/
def log_anomaly_checked (now : ℚ) (ticker anomaly_type : String) (score : ℚ)
    (details : String) (db : List Anomaly) :
    Except PyError (List Anomaly × Anomaly) :=
  match invalidAttr anomalyModelAttrs logAnomalyQueryAttrs with
  | some k =>
    .error (.attributeError ("type object Anomaly has no attribute " ++ k))
  | none => .ok (log_anomaly now ticker anomaly_type score details db)

/-! ### Helper lemmas about `log_anomaly` -/

theorem log_anomaly_insert (now : ℚ) (ticker anomaly_type : String) (score : ℚ)
    (details : String) (db : List Anomaly)
    (h : ∀ b ∈ db, anomalyMatches now ticker anomaly_type b = false) :
    log_anomaly now ticker anomaly_type score details db
      = (db ++ [freshAnomaly now ticker anomaly_type score details],
         freshAnomaly now ticker anomaly_type score details) := by
  induction db with
  | nil => rfl
  | cons a rest ih =>
    have ha : anomalyMatches now ticker anomaly_type a = false :=
      h a (List.mem_cons_self a rest)
    have hrest : ∀ b ∈ rest, anomalyMatches now ticker anomaly_type b = false :=
      fun b hb => h b (List.mem_cons_of_mem a hb)
    simp [log_anomaly, ha, ih hrest]

theorem log_anomaly_update (now : ℚ) (ticker anomaly_type : String) (score : ℚ)
    (details : String) (l1 : List Anomaly) (a : Anomaly) (l2 : List Anomaly)
    (h1 : ∀ b ∈ l1, anomalyMatches now ticker anomaly_type b = false)
    (ha : anomalyMatches now ticker anomaly_type a = true) :
    log_anomaly now ticker anomaly_type score details (l1 ++ a :: l2)
      = (l1 ++ mergeAnomaly score details a :: l2, mergeAnomaly score details a) := by
  induction l1 with
  | nil => simp [log_anomaly, ha]
  | cons b rest ih =>
    have hb : anomalyMatches now ticker anomaly_type b = false :=
      h1 b (List.mem_cons_self b rest)
    have hrest : ∀ c ∈ rest, anomalyMatches now ticker anomaly_type c = false :=
      fun c hc => h1 c (List.mem_cons_of_mem b hc)
    simp [log_anomaly, hb, ih hrest]

/-! ### Claims C2 and C3: the anomaly logger -/

/-- C3: the dedup/merge contract of `log_anomaly` is exactly as claimed at the
logic level, but the code as written crashes on every call: building the dedup
query evaluates `Anomaly.resolved`, and the ORM class `Anomaly` in `models.py`
declares no `resolved` column, so Python raises
`AttributeError: type object Anomaly has no attribute resolved` before any row
is read, updated or inserted. -/
theorem C3_log_anomaly_attribute_error (now : ℚ) (ticker anomaly_type : String)
    (score : ℚ) (details : String) (db : List Anomaly) :
    log_anomaly_checked now ticker anomaly_type score details db
      = .error (.attributeError "type object Anomaly has no attribute resolved")
    ∧ invalidAttr anomalyModelAttrs logAnomalyQueryAttrs = some "resolved" :=
  ⟨rfl, rfl⟩

/-- C3, witness: the crash happens on a concrete call as well. -/
theorem C3_log_anomaly_attribute_error_witness :
    log_anomaly_checked 10 "TICK" "volume" 9 "d" []
      = .error (.attributeError "type object Anomaly has no attribute resolved") :=
  (C3_log_anomaly_attribute_error 10 "TICK" "volume" 9 "d" []).1

/-- Latent behaviour of the merge path (detector.py lines 307-311), stated on
the logic model `log_anomaly` of the code BEHIND the `AttributeError` that
every real call raises (see `logAnomalyQueryAttrs` / `anomalyModelAttrs`):
even if the missing `resolved` column were added, the merge path would update
the score to the max while leaving `severity` untouched, so a row logged at
severity "low" (score 4) and re-triggered with score 9 would end up with
score 9 and severity "low", although the banding of 9 is "critical". -/
theorem log_anomaly_merge_severity_stale :
    ((log_anomaly 10 "TICK" "volume" 9 "d2"
        [{ ticker := "TICK", anomaly_type := "volume", score := 4,
           severity := "low", details := "d1", detected_at := 10,
           resolved := false }]).2.score = 9)
    ∧ ((log_anomaly 10 "TICK" "volume" 9 "d2"
        [{ ticker := "TICK", anomaly_type := "volume", score := 4,
           severity := "low", details := "d1", detected_at := 10,
           resolved := false }]).2.severity = "low")
    ∧ severity_of 9 = "critical"
    ∧ ("low" : String) ≠ "critical" := by
  refine ⟨?_, ?_, ?_, by decide⟩
  · norm_num [log_anomaly, anomalyMatches, mergeAnomaly]
  · norm_num [log_anomaly, anomalyMatches, mergeAnomaly]
  · unfold severity_of
    norm_num

/-- C2: no Anomaly record is ever produced or updated by the logger, so its
severity can never equal (nor fail to equal) the banding of its current
score: at the claim's own scenario -- an unresolved "TICK"/"volume" row at
score 4 / severity "low" re-triggered with score 9 -- `log_anomaly` raises
`AttributeError: type object Anomaly has no attribute resolved` while
building the dedup query (`models.py` declares no `resolved` column on
`Anomaly`), before any row is read, merged or inserted.  The banding itself
maps 9 to "critical" and 4 to "low". -/
theorem C2_severity_attribute_error :
    log_anomaly_checked 10 "TICK" "volume" 9 "d2"
        [{ ticker := "TICK", anomaly_type := "volume", score := 4,
           severity := "low", details := "d1", detected_at := 10,
           resolved := false }]
      = .error (.attributeError "type object Anomaly has no attribute resolved")
    ∧ severity_of 9 = "critical"
    ∧ severity_of 4 = "low" := by
  refine ⟨rfl, ?_, ?_⟩
  · unfold severity_of
    norm_num
  · unfold severity_of
    norm_num

/-- C3 is settled as a code bug, but the dedup contract it describes is also
established for the logic model: this closed corollary of the helper lemmas
shows a concrete re-trigger updating in place (max score, new details, no
insertion) and a concrete stale row causing a fresh append. -/
theorem log_anomaly_dedup_example :
    (log_anomaly 10 "TICK" "volume" 9 "d2"
        [{ ticker := "TICK", anomaly_type := "volume", score := 4,
           severity := "low", details := "d1", detected_at := 10,
           resolved := false }]).1.length = 1
    ∧ (log_anomaly 10 "TICK" "volume" 9 "d2"
        [{ ticker := "TICK", anomaly_type := "volume", score := 4,
           severity := "low", details := "d1", detected_at := 8,
           resolved := false }]).1.length = 2 := by
  refine ⟨?_, ?_⟩ <;> norm_num [log_anomaly, anomalyMatches, mergeAnomaly]

/-! ### Claim C6: volume anomaly z-score -/

/-- A row of the `baselines` table as declared in `models.py` (lines 51-61);
`detect_volume_anomaly` reads only `avg_volume` and `std_volume`. -/
structure BaselineRow where
  ticker : String
  avg_volume : ℚ
  std_volume : ℚ
  avg_price_change : Option ℚ
  calculated_at : ℚ
deriving DecidableEq, Repr

/-- The `query(Baseline).filter_by(ticker=...).first()` lookup. -/
def findBaseline (db : List BaselineRow) (ticker : String) : Option BaselineRow :=
  db.find? (fun b => b.ticker == ticker)

/-- `AnomalyDetector.detect_volume_anomaly` (detector.py lines 114-126).
Python truthiness: `not baseline.std_volume` is true exactly when the float
is zero. -/
def detect_volume_anomaly (db : List BaselineRow) (ticker : String)
    (total_volume : ℚ) : Bool × ℚ :=
  match findBaseline db ticker with
  | none => (false, 0)
  | some baseline =>
    if baseline.std_volume = 0 then (false, 0)
    else
      let zscore := (total_volume - baseline.avg_volume) / baseline.std_volume
      (decide (volume_zscore_threshold ≤ zscore), zscore)

/-- C6: `detect_volume_anomaly` never divides by zero: a missing baseline or
one with zero std yields `(false, 0)`; otherwise the z-score is
`(v - avg) / std` and the anomaly flag holds exactly when the z-score is at
least the configured threshold, which is 3. -/
theorem C6_volume_zscore_safe (db : List BaselineRow) (ticker : String) (v : ℚ) :
    (findBaseline db ticker = none → detect_volume_anomaly db ticker v = (false, 0))
    ∧ (∀ b, findBaseline db ticker = some b → b.std_volume = 0 →
        detect_volume_anomaly db ticker v = (false, 0))
    ∧ (∀ b, findBaseline db ticker = some b → b.std_volume ≠ 0 →
        detect_volume_anomaly db ticker v
          = (decide (volume_zscore_threshold ≤ (v - b.avg_volume) / b.std_volume),
             (v - b.avg_volume) / b.std_volume))
    ∧ (∀ b, findBaseline db ticker = some b → b.std_volume ≠ 0 →
        ((detect_volume_anomaly db ticker v).1 = true
          ↔ volume_zscore_threshold ≤ (v - b.avg_volume) / b.std_volume))
    ∧ volume_zscore_threshold = 3 := by
  refine ⟨?_, ?_, ?_, ?_, rfl⟩
  · intro h; simp [detect_volume_anomaly, h]
  · intro b hb h0; simp [detect_volume_anomaly, hb, h0]
  · intro b hb h0; simp [detect_volume_anomaly, hb, h0]
  · intro b hb h0; simp [detect_volume_anomaly, hb, h0]

/-- C6, witness: a baseline with avg 10 and std 2 flags volume 20
(z-score 5 ≥ 3). -/
theorem C6_volume_zscore_safe_witness :
    detect_volume_anomaly [⟨"T", 10, 2, none, 0⟩] "T" 20 = (true, 5) := by
  have h := (C6_volume_zscore_safe [⟨"T", 10, 2, none, 0⟩] "T" 20).2.2.1
    ⟨"T", 10, 2, none, 0⟩ rfl (by norm_num)
  rw [h]
  norm_num [volume_zscore_threshold]

/-! ### Claim C10: composite score bounds -/

/-- The `volume_score` component of `calculate_anomaly_score`
(detector.py line 258). -/
def volume_score (volume_zscore : ℚ) : ℚ := min (max (volume_zscore - 2) 0) 5

/-- The `vpin_score` component (detector.py line 261). -/
def vpin_score (vpin : ℚ) : ℚ := min (vpin * 3) 3

/-- The `urgency_score` step function (detector.py lines 264-275). -/
def urgency_score (days_to_close : ℤ) : ℚ :=
  if days_to_close ≤ 0 then 4
  else if days_to_close ≤ 1 then 7/2
  else if days_to_close ≤ 3 then 3
  else if days_to_close ≤ 7 then 2
  else if days_to_close ≤ 14 then 1
  else 0

/-- The `corr_score` component (detector.py line 278). -/
def corr_score (price_volume_corr : ℚ) : ℚ := min (|price_volume_corr| * 3) 3

/-- The `whale_score` component (detector.py line 281); `whale_count` is a
Python int. -/
def whale_score (whale_count : ℤ) : ℚ := min ((whale_count : ℚ) * (3/2)) 3

/-- `AnomalyDetector.calculate_anomaly_score` (detector.py lines 238-284);
`price_car` is accepted and ignored, as in the source. -/
def calculate_anomaly_score (volume_zscore price_car : ℚ) (days_to_close : ℤ)
    (vpin price_volume_corr : ℚ) (whale_count : ℤ) : ℚ :=
  volume_score volume_zscore + vpin_score vpin + urgency_score days_to_close
    + corr_score price_volume_corr + whale_score whale_count

/-- C10: with vpin in [0,1], correlation in [-1,1] and a nonnegative whale
count, every component is individually bounded (volume in [0,5], vpin in
[0,3], urgency in [0,4], correlation in [0,3], whales in [0,3]) and the
unclamped total lies in [0,18]. -/
theorem C10_score_bounds (volume_zscore price_car : ℚ) (days_to_close : ℤ)
    (vpin price_volume_corr : ℚ) (whale_count : ℤ)
    (hv0 : 0 ≤ vpin) (hv1 : vpin ≤ 1)
    (hc0 : -1 ≤ price_volume_corr) (hc1 : price_volume_corr ≤ 1)
    (hw : 0 ≤ whale_count) :
    (0 ≤ volume_score volume_zscore ∧ volume_score volume_zscore ≤ 5)
    ∧ (0 ≤ vpin_score vpin ∧ vpin_score vpin ≤ 3)
    ∧ (0 ≤ urgency_score days_to_close ∧ urgency_score days_to_close ≤ 4)
    ∧ (0 ≤ corr_score price_volume_corr ∧ corr_score price_volume_corr ≤ 3)
    ∧ (0 ≤ whale_score whale_count ∧ whale_score whale_count ≤ 3)
    ∧ 0 ≤ calculate_anomaly_score volume_zscore price_car days_to_close
            vpin price_volume_corr whale_count
    ∧ calculate_anomaly_score volume_zscore price_car days_to_close
        vpin price_volume_corr whale_count ≤ 18 := by
  have hvol : 0 ≤ volume_score volume_zscore ∧ volume_score volume_zscore ≤ 5 :=
    ⟨le_min (le_max_right _ _) (by norm_num), min_le_right _ _⟩
  have hvp : 0 ≤ vpin_score vpin ∧ vpin_score vpin ≤ 3 :=
    ⟨le_min (by positivity) (by norm_num), min_le_right _ _⟩
  have hurg : 0 ≤ urgency_score days_to_close ∧ urgency_score days_to_close ≤ 4 := by
    unfold urgency_score
    split_ifs <;> norm_num
  have hcor : 0 ≤ corr_score price_volume_corr ∧ corr_score price_volume_corr ≤ 3 :=
    ⟨le_min (by positivity) (by norm_num), min_le_right _ _⟩
  have hwh : 0 ≤ whale_score whale_count ∧ whale_score whale_count ≤ 3 := by
    constructor
    · exact le_min (mul_nonneg (by exact_mod_cast hw) (by norm_num)) (by norm_num)
    · exact min_le_right _ _
  refine ⟨hvol, hvp, hurg, hcor, hwh, ?_, ?_⟩ <;>
    · unfold calculate_anomaly_score
      obtain ⟨a1, a2⟩ := hvol
      obtain ⟨b1, b2⟩ := hvp
      obtain ⟨c1, c2⟩ := hurg
      obtain ⟨d1, d2⟩ := hcor
      obtain ⟨e1, e2⟩ := hwh
      linarith

/-- C10, witness: concrete inputs inside the stated domain give a score in
[0, 18]. -/
theorem C10_score_bounds_witness :
    0 ≤ calculate_anomaly_score 10 0 5 (1/2) (-1/2) 2
    ∧ calculate_anomaly_score 10 0 5 (1/2) (-1/2) 2 ≤ 18 :=
  ⟨(C10_score_bounds 10 0 5 (1/2) (-1/2) 2 (by norm_num) (by norm_num)
      (by norm_num) (by norm_num) (by norm_num)).2.2.2.2.2.1,
   (C10_score_bounds 10 0 5 (1/2) (-1/2) 2 (by norm_num) (by norm_num)
      (by norm_num) (by norm_num) (by norm_num)).2.2.2.2.2.2⟩

/-! ### Claim C5: VPIN -/

instance : DecidableRel (fun a b : Trade => b.timestamp ≤ a.timestamp) :=
  fun a b => inferInstanceAs (Decidable (b.timestamp ≤ a.timestamp))

/-- Trades of a ticker ordered most-recent-first: the query
`filter(Trade.ticker == ticker).order_by(Trade.timestamp.desc())`
(detector.py lines 136-142). -/
def tradesDesc (db : List Trade) (ticker : String) : List Trade :=
  (db.filter (fun t => t.ticker == ticker)).insertionSort
    (fun a b => b.timestamp ≤ a.timestamp)

/-- `window_trades or int(self.config["vpin_window_trades"])`
(detector.py line 134); Python truthiness sends both `None` and `0` to the
configured default. -/
def effectiveVpinWindow (window_trades : Option ℕ) : ℕ :=
  match window_trades with
  | some w => if w ≠ 0 then w else vpin_window_trades
  | none => vpin_window_trades

/-- The `.limit(window)` result the VPIN loop runs over. -/
def vpinSample (db : List Trade) (ticker : String) (window_trades : Option ℕ) :
    List Trade :=
  (tradesDesc db ticker).take (effectiveVpinWindow window_trades)

/-- `sum(t.volume for t in trades if t.side == "yes")` (detector.py line 146). -/
def buyVolume (trades : List Trade) : ℤ :=
  ((trades.filter (fun t => t.side == "yes")).map (fun t => t.volume)).sum

/-- `sum(t.volume for t in trades if t.side == "no")` (detector.py line 147). -/
def sellVolume (trades : List Trade) : ℤ :=
  ((trades.filter (fun t => t.side == "no")).map (fun t => t.volume)).sum

/-- `AnomalyDetector.calculate_vpin` (detector.py lines 132-155). -/
def calculate_vpin (db : List Trade) (ticker : String)
    (window_trades : Option ℕ) : ℚ :=
  let trades := vpinSample db ticker window_trades
  if trades.length < 10 then 0
  else
    let buy_volume := buyVolume trades
    let sell_volume := sellVolume trades
    let total_volume := buy_volume + sell_volume
    if total_volume = 0 then 0
    else |(buy_volume : ℚ) - (sell_volume : ℚ)| / (total_volume : ℚ)

theorem vpinSample_subset (db : List Trade) (ticker : String) (w : Option ℕ) :
    vpinSample db ticker w ⊆ db := by
  intro t ht
  have h1 : t ∈ tradesDesc db ticker := List.take_subset _ _ ht
  unfold tradesDesc at h1
  have h2 : t ∈ db.filter (fun t => t.ticker == ticker) :=
    (List.perm_insertionSort _ _).mem_iff.mp h1
  exact List.mem_of_mem_filter h2

theorem buyVolume_nonneg {l : List Trade} (h : ∀ t ∈ l, 0 ≤ t.volume) :
    0 ≤ buyVolume l := by
  apply List.sum_nonneg
  intro x hx
  simp only [List.mem_map] at hx
  obtain ⟨t, ht, rfl⟩ := hx
  exact h t (List.mem_of_mem_filter ht)

theorem sellVolume_nonneg {l : List Trade} (h : ∀ t ∈ l, 0 ≤ t.volume) :
    0 ≤ sellVolume l := by
  apply List.sum_nonneg
  intro x hx
  simp only [List.mem_map] at hx
  obtain ⟨t, ht, rfl⟩ := hx
  exact h t (List.mem_of_mem_filter ht)

/-- C5: over a trade store with nonnegative volumes, `calculate_vpin` returns
0 when fewer than 10 trades are selected or the classified volume is 0,
otherwise |buy − sell| / (buy + sell) over the most recent `window` trades
(default 50); the result is always in [0,1], is 0 when buy equals sell, and
is 1 when all classified volume sits on one side. -/
theorem C5_vpin_spec (db : List Trade) (ticker : String) (window_trades : Option ℕ)
    (hvol : ∀ t ∈ db, 0 ≤ t.volume) :
    ((vpinSample db ticker window_trades).length < 10 →
        calculate_vpin db ticker window_trades = 0)
    ∧ (buyVolume (vpinSample db ticker window_trades)
         + sellVolume (vpinSample db ticker window_trades) = 0 →
        calculate_vpin db ticker window_trades = 0)
    ∧ (¬ (vpinSample db ticker window_trades).length < 10 →
       buyVolume (vpinSample db ticker window_trades)
         + sellVolume (vpinSample db ticker window_trades) ≠ 0 →
        calculate_vpin db ticker window_trades
          = |(buyVolume (vpinSample db ticker window_trades) : ℚ)
              - (sellVolume (vpinSample db ticker window_trades) : ℚ)|
            / ((buyVolume (vpinSample db ticker window_trades) : ℚ)
              + (sellVolume (vpinSample db ticker window_trades) : ℚ)))
    ∧ (0 ≤ calculate_vpin db ticker window_trades
        ∧ calculate_vpin db ticker window_trades ≤ 1)
    ∧ (buyVolume (vpinSample db ticker window_trades)
         = sellVolume (vpinSample db ticker window_trades) →
        calculate_vpin db ticker window_trades = 0)
    ∧ (¬ (vpinSample db ticker window_trades).length < 10 →
       sellVolume (vpinSample db ticker window_trades) = 0 →
       buyVolume (vpinSample db ticker window_trades) ≠ 0 →
        calculate_vpin db ticker window_trades = 1)
    ∧ (¬ (vpinSample db ticker window_trades).length < 10 →
       buyVolume (vpinSample db ticker window_trades) = 0 →
       sellVolume (vpinSample db ticker window_trades) ≠ 0 →
        calculate_vpin db ticker window_trades = 1)
    ∧ effectiveVpinWindow none = 50 := by
  have hsub := vpinSample_subset db ticker window_trades
  have hsel : ∀ t ∈ vpinSample db ticker window_trades, 0 ≤ t.volume :=
    fun t ht => hvol t (hsub ht)
  have hb : 0 ≤ buyVolume (vpinSample db ticker window_trades) :=
    buyVolume_nonneg hsel
  have hs : 0 ≤ sellVolume (vpinSample db ticker window_trades) :=
    sellVolume_nonneg hsel
  have hcv : calculate_vpin db ticker window_trades
      = if (vpinSample db ticker window_trades).length < 10 then 0
        else if buyVolume (vpinSample db ticker window_trades)
            + sellVolume (vpinSample db ticker window_trades) = 0 then 0
        else |(buyVolume (vpinSample db ticker window_trades) : ℚ)
              - (sellVolume (vpinSample db ticker window_trades) : ℚ)|
            / ((buyVolume (vpinSample db ticker window_trades)
              + sellVolume (vpinSample db ticker window_trades) : ℤ) : ℚ) := rfl
  set B := buyVolume (vpinSample db ticker window_trades) with hB
  set S := sellVolume (vpinSample db ticker window_trades) with hS
  refine ⟨?_, ?_, ?_, ?_, ?_, ?_, ?_, rfl⟩
  · intro h; rw [hcv, if_pos h]
  · intro h
    rw [hcv, h]
    simp
  · intro h1 h2
    rw [hcv, if_neg h1, if_neg h2]
    push_cast
    ring_nf
  · rw [hcv]
    split_ifs with h1 h2
    · norm_num
    · norm_num
    · have htot : (0 : ℤ) < B + S := lt_of_le_of_ne (by linarith) (Ne.symm h2)
      have htotQ : (0 : ℚ) < ((B + S : ℤ) : ℚ) := by exact_mod_cast htot
      constructor
      · exact div_nonneg (abs_nonneg _) htotQ.le
      · rw [div_le_one htotQ]
        push_cast
        rw [abs_sub_le_iff]
        constructor
        · have : (0 : ℚ) ≤ (S : ℚ) := by exact_mod_cast hs
          linarith
        · have : (0 : ℚ) ≤ (B : ℚ) := by exact_mod_cast hb
          linarith
  · intro h
    rw [hcv, h]
    split_ifs <;> simp
  · intro h1 h2 h3
    have hBpos : (0 : ℤ) < B := lt_of_le_of_ne hb (Ne.symm h3)
    have hBQ : (0 : ℚ) < (B : ℚ) := by exact_mod_cast hBpos
    rw [hcv, if_neg h1, if_neg (by rw [h2]; simpa using h3), h2]
    push_cast
    rw [sub_zero, abs_of_pos hBQ, add_zero]
    exact div_self (ne_of_gt hBQ)
  · intro h1 h2 h3
    have hSpos : (0 : ℤ) < S := lt_of_le_of_ne hs (Ne.symm h3)
    have hSQ : (0 : ℚ) < (S : ℚ) := by exact_mod_cast hSpos
    rw [hcv, if_neg h1, if_neg (by rw [h2]; simpa using h3), h2]
    push_cast
    rw [zero_sub, abs_neg, abs_of_pos hSQ, zero_add]
    exact div_self (ne_of_gt hSQ)

/-! ### Claim C9: whale-trade threshold override -/

/-- The whale record dict appended for each flagged trade
(detector.py lines 186-196). -/
structure WhaleRecord where
  trade_id : String
  trader_id : Option String
  side : String
  volume : ℤ
  price : ℚ
  value_usd : ℚ
  timestamp : ℚ
deriving DecidableEq, Repr

/-- `threshold_usd or self.config.get("whale_threshold_usd", 3000.0)`
(detector.py line 172): Python truthiness sends both `None` and `0.0` to the
configured value; any nonzero float, positive or negative, is kept. -/
def effectiveWhaleThreshold (threshold_usd : Option ℚ) : ℚ :=
  match threshold_usd with
  | some t => if t ≠ 0 then t else whale_threshold_usd
  | none => whale_threshold_usd

/-- `value_usd = float(trade.volume * trade.price / 100.0)`
(detector.py line 184). -/
def tradeValueUsd (t : Trade) : ℚ := (t.volume : ℚ) * t.price / 100

/-- `AnomalyDetector.detect_whale_trades` (detector.py lines 161-198). -/
def detect_whale_trades (db : List Trade) (now : ℚ) (ticker : String)
    (threshold_usd : Option ℚ) (lookback_hours : ℚ) : List WhaleRecord :=
  let threshold := effectiveWhaleThreshold threshold_usd
  let cutoff := now - lookback_hours
  let trades := db.filter
    (fun t => t.ticker == ticker && decide (cutoff ≤ t.timestamp))
  (trades.filter (fun t => decide (threshold ≤ tradeValueUsd t))).map
    (fun t => { trade_id := t.trade_id, trader_id := t.trader_id,
                side := t.side, volume := t.volume, price := t.price,
                value_usd := tradeValueUsd t, timestamp := t.timestamp })

/-- C9, counterexample: the claim's clause "only a strictly positive override
replaces the configured threshold" is false -- the override `-1.0` is not
strictly positive yet replaces the configured 3000, and with it a worthless
trade (volume 1 at price 0, USD value 0) is flagged even though the default
threshold would not flag it. -/
theorem C9_negative_override_counterexample :
    effectiveWhaleThreshold (some (-1)) = -1
    ∧ effectiveWhaleThreshold (some (-1)) ≠ whale_threshold_usd
    ∧ ¬ (0 < (-1 : ℚ))
    ∧ (detect_whale_trades
        [{ ticker := "T", trade_id := "t1", price := 0, volume := 1,
           side := "yes", timestamp := 0, trader_id := none }]
        0 "T" (some (-1)) 24).length = 1
    ∧ (detect_whale_trades
        [{ ticker := "T", trade_id := "t1", price := 0, volume := 1,
           side := "yes", timestamp := 0, trader_id := none }]
        0 "T" none 24).length = 0 := by
  refine ⟨?_, ?_, by norm_num, ?_, ?_⟩
  · norm_num [effectiveWhaleThreshold]
  · norm_num [effectiveWhaleThreshold, whale_threshold_usd]
  · norm_num [detect_whale_trades, effectiveWhaleThreshold, tradeValueUsd]
  · norm_num [detect_whale_trades, effectiveWhaleThreshold, tradeValueUsd,
      whale_threshold_usd]

/-- C9, amended: a zero override falls back to the configured default
threshold of 3000 (so the call behaves exactly like passing no override, and
every flagged record still has USD value at least 3000, rather than every
trade being flagged); any nonzero override -- not only strictly positive
ones -- replaces the configured threshold. -/
theorem C9_whale_threshold_amended (db : List Trade) (now : ℚ) (ticker : String)
    (lookback_hours : ℚ) :
    detect_whale_trades db now ticker (some 0) lookback_hours
      = detect_whale_trades db now ticker none lookback_hours
    ∧ effectiveWhaleThreshold (some 0) = whale_threshold_usd
    ∧ effectiveWhaleThreshold none = whale_threshold_usd
    ∧ whale_threshold_usd = 3000
    ∧ (∀ t : ℚ, t ≠ 0 → effectiveWhaleThreshold (some t) = t)
    ∧ (∀ w ∈ detect_whale_trades db now ticker (some 0) lookback_hours,
        whale_threshold_usd ≤ w.value_usd) := by
  have hz : effectiveWhaleThreshold (some 0) = whale_threshold_usd := by
    norm_num [effectiveWhaleThreshold]
  refine ⟨?_, hz, rfl, rfl, ?_, ?_⟩
  · unfold detect_whale_trades
    rw [hz]
    rfl
  · intro t ht
    simp [effectiveWhaleThreshold, ht]
  · intro w hw
    unfold detect_whale_trades at hw
    rw [hz] at hw
    simp only [List.mem_map, List.mem_filter] at hw
    obtain ⟨t, ⟨_, ht⟩, rfl⟩ := hw
    exact of_decide_eq_true ht

/-- C9, witness: the amended theorem instantiated concretely -- a nonzero
override of 7 is kept as the effective threshold. -/
theorem C9_whale_threshold_amended_witness :
    effectiveWhaleThreshold (some 7) = 7 :=
  (C9_whale_threshold_amended [] 0 "T" 24).2.2.2.2.1 7 (by norm_num)

/-! ### Claim C1: the retrying request executor -/

/-- Outcome of one transport-level call inside `KalshiAPI._request`
(kalshi_service.py lines 393-455): a successful response body, a non-2xx
HTTP status (which `response.raise_for_status()` turns into
`httpx.HTTPStatusError`), a timeout, or a connection failure. -/
inductive Outcome (α : Type) where
  | ok (body : α)
  | httpStatus (code : ℕ)
  | timeout
  | connectError
deriving DecidableEq, Repr

/-- The error kinds `_request` can re-raise to tenacity. -/
inductive ReqError where
  | httpStatus (code : ℕ)
  | timeout
  | connectError
deriving DecidableEq, Repr

/-- One attempt of `_request` (kalshi_service.py lines 393-455): 429 is
re-raised, 404 is converted into the empty result, 5xx is re-raised, any
other HTTP error status is re-raised, timeouts and connect failures
re-raise. -/
def attemptOnce {α : Type} (emptyResp : α) : Outcome α → Except ReqError α
  | .ok body => .ok body
  | .httpStatus code =>
    if code = 429 then .error (.httpStatus code)
    else if code = 404 then .ok emptyResp
    else if 500 ≤ code then .error (.httpStatus code)
    else .error (.httpStatus code)
  | .timeout => .error .timeout
  | .connectError => .error .connectError

/-- tenacity's retry predicate (kalshi_service.py lines 347-351):
`retry_if_exception_type` matches on the exception TYPE only, and the tuple
lists `httpx.HTTPStatusError` unrestricted, so every status error --
whatever its code -- counts as retryable, alongside timeouts and connect
errors. -/
def isRetryableError : ReqError → Bool
  | .httpStatus _ => true
  | .timeout => true
  | .connectError => true

/-- The tenacity driver with `stop_after_attempt(3)` and `reraise=True`
(kalshi_service.py lines 344-354): run the attempt numbered `attempt`; on a
retryable error with retries remaining, run the next attempt, otherwise
re-raise.  Returns the final result paired with the number of attempts
made. -/
def retryFrom {α : Type} (emptyResp : α) (transport : ℕ → Outcome α) :
    ℕ → ℕ → Except ReqError α × ℕ
  | attempt, 0 => (attemptOnce emptyResp (transport attempt), attempt)
  | attempt, remaining + 1 =>
    match attemptOnce emptyResp (transport attempt) with
    | .ok body => (.ok body, attempt)
    | .error e =>
      if isRetryableError e then
        retryFrom emptyResp transport (attempt + 1) remaining
      else (.error e, attempt)

/-- `KalshiAPI._request` under its retry decorator: the first attempt is
number 1, and at most 3 attempts are made in total. -/
def request {α : Type} (emptyResp : α) (transport : ℕ → Outcome α) :
    Except ReqError α × ℕ :=
  retryFrom emptyResp transport 1 2

theorem isRetryableError_true (e : ReqError) : isRetryableError e = true := by
  cases e <;> rfl

/-- C1, counterexample: a transport that always returns HTTP 400 is retried
-- the executor makes 3 attempts, not the claimed 1, before propagating the
error, because the retry predicate treats every status error as
retryable. -/
theorem C1_always400_counterexample :
    request () (fun _ => Outcome.httpStatus 400)
      = (Except.error (ReqError.httpStatus 400), 3)
    ∧ (request () (fun _ => Outcome.httpStatus 400)).2 ≠ 1 := by
  refine ⟨rfl, ?_⟩
  norm_num [request, retryFrom, attemptOnce, isRetryableError]

/-- C1, amended: a transport that always returns a fixed HTTP error status
other than 404 (in particular 400) yields exactly 3 attempts and then the
propagated error -- not 1 attempt, since tenacity retries every
`HTTPStatusError`; a transport whose first two attempts fail with any
(necessarily retryable) errors and whose third attempt succeeds yields
exactly 3 attempts and the successful result. -/
theorem C1_retry_behaviour {α : Type} (emptyResp : α)
    (transport : ℕ → Outcome α) (code : ℕ) :
    ((∀ n, transport n = Outcome.httpStatus code) → code ≠ 404 →
      request emptyResp transport
        = (Except.error (ReqError.httpStatus code), 3))
    ∧ (∀ e1 e2 body,
        attemptOnce emptyResp (transport 1) = .error e1 →
        attemptOnce emptyResp (transport 2) = .error e2 →
        attemptOnce emptyResp (transport 3) = .ok body →
        request emptyResp transport = (.ok body, 3)) := by
  constructor
  · intro htr h404
    have hao : attemptOnce emptyResp (Outcome.httpStatus code)
        = .error (.httpStatus code) := by
      have hm : attemptOnce emptyResp (Outcome.httpStatus code)
          = if code = 429 then Except.error (ReqError.httpStatus code)
            else if code = 404 then Except.ok emptyResp
            else if 500 ≤ code then Except.error (ReqError.httpStatus code)
            else Except.error (ReqError.httpStatus code) := rfl
      rw [hm]
      split_ifs <;> rfl
    show retryFrom emptyResp transport 1 2
      = (Except.error (ReqError.httpStatus code), 3)
    rw [show (2 : ℕ) = 1 + 1 from rfl, retryFrom, htr 1, hao]
    rw [show (1 : ℕ) = 0 + 1 from rfl]
    simp only [isRetryableError_true, if_true]
    rw [retryFrom, htr 2, hao]
    simp only [isRetryableError_true, if_true]
    rw [retryFrom, htr 3, hao]
  · intro e1 e2 body h1 h2 h3
    show retryFrom emptyResp transport 1 2 = (.ok body, 3)
    rw [show (2 : ℕ) = 1 + 1 from rfl, retryFrom, h1]
    rw [show (1 : ℕ) = 0 + 1 from rfl]
    simp only [isRetryableError_true, if_true]
    rw [retryFrom, h2]
    simp only [isRetryableError_true, if_true]
    rw [retryFrom, h3]

/-- C1, witness: both amended behaviours at concrete transports -- an
always-400 transport propagates the error after 3 attempts, and a transport
that times out twice then succeeds returns the body after 3 attempts. -/
theorem C1_retry_behaviour_witness :
    request () (fun _ => Outcome.httpStatus 400)
      = (Except.error (ReqError.httpStatus 400), 3)
    ∧ request () (fun n => if n ≤ 2 then Outcome.timeout else Outcome.ok ())
      = (Except.ok (), 3) :=
  ⟨(C1_retry_behaviour () (fun _ => Outcome.httpStatus 400) 400).1
      (fun _ => rfl) (by norm_num),
   (C1_retry_behaviour ()
      (fun n => if n ≤ 2 then Outcome.timeout else Outcome.ok ()) 400).2
      .timeout .timeout () rfl rfl rfl⟩

/-! ### Claim C8: cursor pagination -/

/-- One page as returned by `get_events` / `get_markets`
(kalshi_service.py lines 461-486 and 544-573): the items plus the
continuation cursor of the response. -/
structure Page (α : Type) where
  items : List α
  cursor : Option String
deriving DecidableEq, Repr

/-- `if max_events and len(all_events) >= max_events:` (kalshi_service.py
lines 527 and 613): Python truthiness, so an explicit maximum of 0 never
triggers the cap. -/
def capTriggers (max_items : Option ℕ) (count : ℕ) : Bool :=
  match max_items with
  | some m => decide (m ≠ 0) && decide (m ≤ count)
  | none => false

/-- `all_events = all_events[:max_events]` (lines 528 and 614). -/
def applyCap {α : Type} (max_items : Option ℕ) (l : List α) : List α :=
  match max_items with
  | some m => l.take m
  | none => l

/-- The fetch-all loop shared verbatim by `get_all_events` (kalshi_service.py
lines 488-538) and `get_all_markets` (lines 575-623).  `fetchPage n` is the
page returned by the n-th underlying page call; `fuel` bounds how many
iterations the model unfolds (the Python `while True` has no such bound, so
`none` means the loop did not terminate within `fuel` pages). -/
def fetchAllLoop {α : Type} (fetchPage : ℕ → Page α) (max_items : Option ℕ) :
    ℕ → ℕ → List α → Option (List α)
  | 0, _, _ => none
  | fuel + 1, pageNum, acc =>
    let page := fetchPage pageNum
    if page.items.isEmpty then some acc
    else
      let acc2 := acc ++ page.items
      if capTriggers max_items acc2.length then some (applyCap max_items acc2)
      else if page.cursor.isNone then some acc2
      else fetchAllLoop fetchPage max_items fuel (pageNum + 1) acc2

/-- `KalshiAPI.get_all_events` (kalshi_service.py lines 488-538). -/
def get_all_events {α : Type} (fetchPage : ℕ → Page α) (max_events : Option ℕ)
    (fuel : ℕ) : Option (List α) :=
  fetchAllLoop fetchPage max_events fuel 1 []

/-- `KalshiAPI.get_all_markets` (kalshi_service.py lines 575-623); the loop
body is identical to `get_all_events`. -/
def get_all_markets {α : Type} (fetchPage : ℕ → Page α) (max_markets : Option ℕ)
    (fuel : ℕ) : Option (List α) :=
  fetchAllLoop fetchPage max_markets fuel 1 []

/-- In-order concatenation of the items of pages `p`, `p+1`, ..., `q-1`. -/
def pagesSlice {α : Type} (fetchPage : ℕ → Page α) (p q : ℕ) : List α :=
  ((List.range (q - p)).map (fun i => (fetchPage (p + i)).items)).flatten

theorem pagesSlice_self {α : Type} (fetchPage : ℕ → Page α) (p : ℕ) :
    pagesSlice fetchPage p p = [] := by
  simp [pagesSlice, Nat.sub_self]

theorem pagesSlice_cons {α : Type} (fetchPage : ℕ → Page α) (p q : ℕ)
    (h : p < q) :
    pagesSlice fetchPage p q
      = (fetchPage p).items ++ pagesSlice fetchPage (p + 1) q := by
  have hq : q - p = (q - (p + 1)) + 1 := by omega
  unfold pagesSlice
  rw [hq, List.range_succ_eq_map]
  simp only [List.map_cons, List.map_map, List.flatten_cons, add_zero]
  congr 1
  congr 1
  apply List.map_congr_left
  intro i _
  simp only [Function.comp_apply]
  have hpi : p + (i + 1) = p + 1 + i := by omega
  simp [Nat.succ_eq_add_one, hpi]

theorem fetchAllLoop_succ {α : Type} (fetchPage : ℕ → Page α)
    (max_items : Option ℕ) (fuel pageNum : ℕ) (acc : List α) :
    fetchAllLoop fetchPage max_items (fuel + 1) pageNum acc
      = if (fetchPage pageNum).items.isEmpty then some acc
        else
          if capTriggers max_items (acc ++ (fetchPage pageNum).items).length then
            some (applyCap max_items (acc ++ (fetchPage pageNum).items))
          else if (fetchPage pageNum).cursor.isNone then
            some (acc ++ (fetchPage pageNum).items)
          else fetchAllLoop fetchPage max_items fuel (pageNum + 1)
                 (acc ++ (fetchPage pageNum).items) := rfl

theorem fetchAllLoop_none_run {α : Type} (fetchPage : ℕ → Page α) :
    ∀ (fuel p k : ℕ) (acc : List α),
      p ≤ k → k < p + fuel →
      (∀ q, p ≤ q → q < k →
        (fetchPage q).items ≠ [] ∧ (fetchPage q).cursor ≠ none) →
      ((fetchPage k).items = [] →
        fetchAllLoop fetchPage none fuel p acc
          = some (acc ++ pagesSlice fetchPage p k))
      ∧ ((fetchPage k).items ≠ [] → (fetchPage k).cursor = none →
        fetchAllLoop fetchPage none fuel p acc
          = some (acc ++ pagesSlice fetchPage p (k + 1))) := by
  intro fuel
  induction fuel with
  | zero => intro p k acc hpk hk hgood; omega
  | succ f ih =>
    intro p k acc hpk hk hgood
    by_cases hpk2 : p = k
    · subst hpk2
      constructor
      · intro hempty
        rw [fetchAllLoop_succ, if_pos (by simp [hempty]), pagesSlice_self]
        simp
      · intro hne hcur
        rw [fetchAllLoop_succ, if_neg (by simp [hne]),
          if_neg (by simp [capTriggers]),
          if_pos (by simp [hcur]),
          pagesSlice_cons fetchPage p (p + 1) (by omega), pagesSlice_self]
        simp
    · have hplt : p < k := lt_of_le_of_ne hpk hpk2
      obtain ⟨hne, hcur⟩ := hgood p le_rfl hplt
      have hrec := ih (p + 1) k (acc ++ (fetchPage p).items) (by omega) (by omega)
        (fun q hq1 hq2 => hgood q (by omega) hq2)
      constructor
      · intro hk_empty
        rw [fetchAllLoop_succ, if_neg (by simp [hne]),
          if_neg (by simp [capTriggers]),
          if_neg (by simp [Option.isNone_iff_eq_none, hcur]),
          hrec.1 hk_empty, pagesSlice_cons fetchPage p k hplt]
        simp
      · intro hk_ne hk_cur
        rw [fetchAllLoop_succ, if_neg (by simp [hne]),
          if_neg (by simp [capTriggers]),
          if_neg (by simp [Option.isNone_iff_eq_none, hcur]),
          hrec.2 hk_ne hk_cur, pagesSlice_cons fetchPage p (k + 1) (by omega)]
        simp

theorem fetchAllLoop_cap_le {α : Type} (fetchPage : ℕ → Page α) (m : ℕ) :
    ∀ (fuel p : ℕ) (acc : List α), acc.length < m →
      ∀ res, fetchAllLoop fetchPage (some m) fuel p acc = some res →
        res.length ≤ m := by
  intro fuel
  induction fuel with
  | zero => intro p acc hacc res h; simp [fetchAllLoop] at h
  | succ f ih =>
    intro p acc hacc res h
    rw [fetchAllLoop_succ] at h
    by_cases h1 : (fetchPage p).items.isEmpty
    · rw [if_pos h1] at h
      obtain rfl := Option.some.inj h
      omega
    · rw [if_neg h1] at h
      by_cases h2 : capTriggers (some m) (acc ++ (fetchPage p).items).length = true
      · rw [if_pos h2] at h
        obtain rfl := Option.some.inj h
        simp [applyCap, List.length_take]
      · rw [if_neg h2] at h
        have hlen : (acc ++ (fetchPage p).items).length < m := by
          simp only [capTriggers, List.length_append, Bool.and_eq_true,
            decide_eq_true_eq, not_and, not_le] at h2
          simp only [List.length_append]
          omega
        by_cases h3 : (fetchPage p).cursor.isNone
        · rw [if_pos h3] at h
          obtain rfl := Option.some.inj h
          omega
        · rw [if_neg h3] at h
          exact ih (p + 1) _ hlen res h

theorem fetchAllLoop_zero_cap {α : Type} (fetchPage : ℕ → Page α) :
    ∀ (fuel p : ℕ) (acc : List α),
      fetchAllLoop fetchPage (some 0) fuel p acc
        = fetchAllLoop fetchPage none fuel p acc := by
  intro fuel
  induction fuel with
  | zero => intro p acc; rfl
  | succ f ih =>
    intro p acc
    have hc : ∀ n, capTriggers (some 0) n = false := fun n => by simp [capTriggers]
    rw [fetchAllLoop_succ, fetchAllLoop_succ, hc]
    simp only [capTriggers, Bool.false_eq_true, if_false, ih]

/-- C8, counterexample: the claim's cap clause fails when the supplied
maximum is 0 -- `if max_events and ...` is false for 0, so the cap is
silently disabled and a single page of one item is returned whole, exceeding
the supplied maximum of 0 items. -/
theorem C8_zero_cap_counterexample :
    get_all_events (fun _ => ({ items := [()], cursor := none } : Page Unit))
        (some 0) 5 = some [()]
    ∧ ¬ (([()] : List Unit).length ≤ 0) := by
  refine ⟨rfl, by simp⟩

/-- C8, amended: for the uncapped loop the iteration stops exactly at the
first page that is empty (its items are discarded) or carries no
continuation cursor (its items are kept), and the result is the in-order
concatenation of the fetched pages; a supplied *positive* maximum caps the
result length (an explicit maximum of 0 is treated as "no cap" by Python
truthiness); and `get_all_markets` is the very same loop. -/
theorem C8_pagination_amended {α : Type} (fetchPage : ℕ → Page α) :
    (∀ k fuel, 1 ≤ k → k < 1 + fuel →
      (∀ q, 1 ≤ q → q < k →
        (fetchPage q).items ≠ [] ∧ (fetchPage q).cursor ≠ none) →
      ((fetchPage k).items = [] →
        get_all_events fetchPage none fuel = some (pagesSlice fetchPage 1 k))
      ∧ ((fetchPage k).items ≠ [] → (fetchPage k).cursor = none →
        get_all_events fetchPage none fuel
          = some (pagesSlice fetchPage 1 (k + 1))))
    ∧ (∀ m fuel res, 0 < m →
        get_all_events fetchPage (some m) fuel = some res → res.length ≤ m)
    ∧ (∀ fuel, get_all_events fetchPage (some 0) fuel
        = get_all_events fetchPage none fuel)
    ∧ (∀ max_items fuel, get_all_markets fetchPage max_items fuel
        = get_all_events fetchPage max_items fuel) := by
  refine ⟨?_, ?_, ?_, fun _ _ => rfl⟩
  · intro k fuel hk1 hkf hgood
    have h := fetchAllLoop_none_run fetchPage fuel 1 k [] hk1 hkf hgood
    constructor
    · intro he
      have := h.1 he
      simpa [get_all_events] using this
    · intro hne hcur
      have := h.2 hne hcur
      simpa [get_all_events] using this
  · intro m fuel res hm h
    exact fetchAllLoop_cap_le fetchPage m fuel 1 [] (by simpa using hm) res h
  · intro fuel
    exact fetchAllLoop_zero_cap fetchPage fuel 1 []

/-- C8, witness: two pages of two items then an empty page -- the amended
theorem computes the concatenation, which the loop indeed returns. -/
theorem C8_pagination_amended_witness :
    get_all_events
      (fun n => if n ≤ 2
        then ({ items := [n, n + 10], cursor := some "c" } : Page ℕ)
        else { items := [], cursor := none }) none 5
      = some [1, 11, 2, 12] := by
  have h := (C8_pagination_amended
    (fun n => if n ≤ 2
      then ({ items := [n, n + 10], cursor := some "c" } : Page ℕ)
      else { items := [], cursor := none })).1 3 5 (by norm_num) (by norm_num)
    (fun q hq1 hq2 => by
      have hq : q ≤ 2 := by omega
      refine ⟨?_, ?_⟩ <;> simp [hq])
  have h2 := h.1 (by norm_num)
  rw [h2]
  rfl

/-! ### Claim C4: distributed rate limiter -/

/-- One call to `_rate_limit_distributed` (kalshi_service.py lines 260-310)
executed at wall-clock time `now` (seconds) against the shared sorted set,
modeled as the list of entry timestamps: prune entries older than the
1-second window (`zremrangebyscore key 0 now-window` removes scores up to
and including `now - window`), count the remainder (`zcard`), insert this
request's entry at score `now` (`zadd`), and if the pre-insertion count is
at or above `max_rps`, sleep `window / max_rps` -- the entry is inserted
BEFORE the sleep and never withdrawn.  Returns the new sorted-set contents
and the time at which the caller proceeds. -/
def rate_limit_distributed (max_rps window : ℚ) (entries : List ℚ)
    (now : ℚ) : List ℚ × ℚ :=
  let pruned := entries.filter (fun ts => decide (now - window < ts))
  let count_before := pruned.length
  let entries2 := pruned ++ [now]
  if max_rps ≤ (count_before : ℚ) then (entries2, now + window / max_rps)
  else (entries2, now)

/-- Sequential admissions: each caller in turn runs the limiter at its
admission time; returns the final sorted-set contents. -/
def rateLimitRun (max_rps window : ℚ) : List ℚ → List ℚ → List ℚ
  | entries, [] => entries
  | entries, t :: ts =>
    rateLimitRun max_rps window
      (rate_limit_distributed max_rps window entries t).1 ts

/-- The number of sorted-set entries inside the sliding window `(t - w, t]`. -/
def windowCount (window : ℚ) (entries : List ℚ) (t : ℚ) : ℕ :=
  (entries.filter (fun ts => decide (t - window < ts) && decide (ts ≤ t))).length

/-- C4: with `max_rps = 2` and three back-to-back admissions at times 0,
0.01 and 0.02 seconds, the third caller does sleep `window / max_rps = 0.5 s`
(the count at its admission was 2 ≥ 2) -- but its entry was already added, so
one 1-second sliding window contains 3 > 2 entries.  Inserting before
sleeping cannot keep the window at or below the maximum, contradicting the
claim and the code's own docstring ("Ensures global rate limit
compliance"). -/
theorem C4_window_overflow :
    rateLimitRun 2 1 [] [0, 1/100, 2/100] = [0, 1/100, 2/100]
    ∧ windowCount 1 (rateLimitRun 2 1 [] [0, 1/100, 2/100]) (2/100) = 3
    ∧ ¬ ((3 : ℕ) ≤ 2)
    ∧ (rate_limit_distributed 2 1 [0, 1/100] (2/100)).2 = 2/100 + 1/2 := by
  refine ⟨?_, ?_, by norm_num, ?_⟩
  · norm_num [rateLimitRun, rate_limit_distributed]
  · norm_num [rateLimitRun, rate_limit_distributed, windowCount]
  · norm_num [rate_limit_distributed]

/-! ### Claim C7: baseline calculation -/

/-- `np.mean` of a sample. -/
def mean (l : List ℚ) : ℚ := l.sum / l.length

/-- The square of `np.std(l)`: numpy's default is `ddof = 0`, the population
variance, i.e. the mean of the squared deviations from the mean. -/
def popVariance (l : List ℚ) : ℚ :=
  ((l.map (fun x => (x - mean l) ^ 2)).sum) / l.length

/-- The `BaselineStats` dataclass (detector.py lines 14-22). -/
structure BaselineStats where
  ticker : String
  avg_volume : ℚ
  std_volume : ℚ
  avg_price : ℚ
  std_price : ℚ
  avg_trades_per_hour : ℚ
  last_updated : ℚ
deriving DecidableEq, Repr

/-- Keyword arguments of the `Baseline(...)` constructor call on the insert
path of `calculate_baseline` (detector.py lines 87-95), in source order. -/
def baselineInsertKwargs : List String :=
  ["ticker", "avg_volume", "std_volume", "avg_price", "std_price",
   "avg_trades_per_hour", "last_updated"]

/-- Attributes declared on the ORM class `Baseline` in `models.py`
(lines 51-61): the columns plus the `market` relationship.  `avg_price`,
`std_price`, `avg_trades_per_hour` and `last_updated` are NOT among them. -/
def baselineModelAttrs : List String :=
  ["id", "ticker", "avg_volume", "std_volume", "avg_price_change",
   "calculated_at", "market"]

/-- The trades considered by `calculate_baseline` (detector.py lines 47-53):
same ticker and timestamp no older than `window_days` days before `now`
(timestamps are in hours, so the cutoff is `now - window_days * 24`). -/
def baselineTrades (trades_db : List Trade) (now : ℚ) (ticker : String)
    (window_days : ℚ) : List Trade :=
  trades_db.filter
    (fun t => t.ticker == ticker
      && decide (now - window_days * 24 ≤ t.timestamp))

/-- The update path of the upsert (detector.py lines 79-85): SQLAlchemy
persists assignments to the real columns `avg_volume` and `std_volume` of
the first matching row; the assignments to `avg_price`, `std_price`,
`avg_trades_per_hour` and `last_updated` create plain instance attributes
that hit no column, so the stored row keeps its other fields (including
`calculated_at`) unchanged. -/
def updateFirstBaseline (ticker : String) (avg_volume std_volume : ℚ) :
    List BaselineRow → List BaselineRow
  | [] => []
  | b :: rest =>
    if b.ticker == ticker then
      { b with avg_volume := avg_volume, std_volume := std_volume } :: rest
    else b :: updateFirstBaseline ticker avg_volume std_volume rest

/-- `AnomalyDetector.calculate_baseline` (detector.py lines 45-108) with
Python attribute semantics for the upsert.  The float results of
`np.std(volumes)` and `np.std(prices)` are passed in as `std_volume` and
`std_price` (square roots are not rational-valued); theorems constrain them
by `0 ≤ s ∧ s ^ 2 = popVariance sample`.  On the insert path the
`Baseline(...)` constructor checks each keyword against the class attributes
of `models.py` and raises `TypeError` at the first unknown one. -/
def calculate_baseline (trades_db : List Trade) (baselines : List BaselineRow)
    (now : ℚ) (ticker : String) (window_days std_volume std_price : ℚ) :
    Except PyError (Option BaselineStats × List BaselineRow) :=
  let trades := baselineTrades trades_db now ticker window_days
  if trades.length < 10 then .ok (none, baselines)
  else
    let volumes := trades.map (fun t => (t.volume : ℚ))
    let prices := trades.map (fun t => t.price)
    let avg_volume := mean volumes
    let avg_price := mean prices
    let avg_trades_per_hour := (trades.length : ℚ) / (window_days * 24)
    let stats : BaselineStats :=
      { ticker := ticker, avg_volume := avg_volume, std_volume := std_volume,
        avg_price := avg_price, std_price := std_price,
        avg_trades_per_hour := avg_trades_per_hour, last_updated := now }
    match baselines.find? (fun b => b.ticker == ticker) with
    | some _ =>
      .ok (some stats, updateFirstBaseline ticker avg_volume std_volume baselines)
    | none =>
      match invalidAttr baselineModelAttrs baselineInsertKwargs with
      | some k =>
        .error (.typeError (k ++ " is an invalid keyword argument for Baseline"))
      | none =>
        let newRow : BaselineRow :=
          { ticker := ticker, avg_volume := avg_volume,
            std_volume := std_volume, avg_price_change := none,
            calculated_at := now }
        .ok (some stats, baselines ++ [newRow])

/-- The `BaselineStats` value returned for the considered sample, spelled
out in terms of the query result (used to state C7). -/
def baselineStatsOf (trades_db : List Trade) (now : ℚ) (ticker : String)
    (window_days std_volume std_price : ℚ) : BaselineStats :=
  { ticker := ticker,
    avg_volume := mean ((baselineTrades trades_db now ticker window_days).map
      (fun t => (t.volume : ℚ))),
    std_volume := std_volume,
    avg_price := mean ((baselineTrades trades_db now ticker window_days).map
      (fun t => t.price)),
    std_price := std_price,
    avg_trades_per_hour :=
      ((baselineTrades trades_db now ticker window_days).length : ℚ)
        / (window_days * 24),
    last_updated := now }

/-- C7: the cutoff/insufficient-data/statistics logic is as claimed, but the
create half of the upsert is broken: `models.py` declares no `avg_price`,
`std_price`, `avg_trades_per_hour` or `last_updated` column on `Baseline`,
so for a ticker with at least 10 recent trades and no existing baseline row
the `Baseline(...)` constructor raises
`TypeError: avg_price is an invalid keyword argument for Baseline` and no
row is written. -/
theorem C7_baseline_insert_type_error (trades_db : List Trade)
    (baselines : List BaselineRow) (now : ℚ) (ticker : String)
    (window_days std_volume std_price : ℚ)
    (hsv : 0 ≤ std_volume ∧ std_volume ^ 2
        = popVariance ((baselineTrades trades_db now ticker window_days).map
            (fun t => (t.volume : ℚ))))
    (hsp : 0 ≤ std_price ∧ std_price ^ 2
        = popVariance ((baselineTrades trades_db now ticker window_days).map
            (fun t => t.price))) :
    ((baselineTrades trades_db now ticker window_days).length < 10 →
      calculate_baseline trades_db baselines now ticker window_days
          std_volume std_price = .ok (none, baselines))
    ∧ (¬ (baselineTrades trades_db now ticker window_days).length < 10 →
       baselines.find? (fun b => b.ticker == ticker) = none →
       calculate_baseline trades_db baselines now ticker window_days
           std_volume std_price
         = .error (.typeError
             "avg_price is an invalid keyword argument for Baseline"))
    ∧ (∀ b0, ¬ (baselineTrades trades_db now ticker window_days).length < 10 →
        baselines.find? (fun b => b.ticker == ticker) = some b0 →
        calculate_baseline trades_db baselines now ticker window_days
            std_volume std_price
          = .ok (some (baselineStatsOf trades_db now ticker window_days
                std_volume std_price),
            updateFirstBaseline ticker
              (mean ((baselineTrades trades_db now ticker window_days).map
                (fun t => (t.volume : ℚ)))) std_volume baselines))
    ∧ invalidAttr baselineModelAttrs baselineInsertKwargs = some "avg_price" := by
  refine ⟨?_, ?_, ?_, rfl⟩
  · intro h
    unfold calculate_baseline
    rw [if_pos h]
  · intro h10 hnone
    unfold calculate_baseline
    rw [if_neg h10, hnone]
    rfl
  · intro b0 h10 hsome
    unfold calculate_baseline
    rw [if_neg h10, hsome]
    rfl

/-- A concrete trade for the VPIN witness. -/
def vpinWitnessTrade (side : String) : Trade :=
  { ticker := "T", trade_id := "a", price := 50, volume := 1, side := side,
    timestamp := 0, trader_id := none }

/-- Eight yes-side and two no-side trades of volume 1 each. -/
def vpinWitnessTrades : List Trade :=
  List.replicate 8 (vpinWitnessTrade "yes")
    ++ List.replicate 2 (vpinWitnessTrade "no")

/-- C5, witness: the bounds conjunct of the theorem applied to a concrete
ten-trade store with nonnegative volumes. -/
theorem C5_vpin_spec_witness :
    0 ≤ calculate_vpin vpinWitnessTrades "T" none
    ∧ calculate_vpin vpinWitnessTrades "T" none ≤ 1 :=
  (C5_vpin_spec vpinWitnessTrades "T" none (by decide)).2.2.2.1

/-- A concrete trade for the C7 witness: volume 5 at the given price. -/
def c7Trade (p : ℚ) : Trade :=
  { ticker := "T", trade_id := "x", price := p, volume := 5, side := "yes",
    timestamp := 0, trader_id := none }

/-- Ten recent trades: volumes all 5 (population std 0), prices five 10s and
five 30s (population variance 100, std 10). -/
def c7Trades : List Trade :=
  [c7Trade 10, c7Trade 10, c7Trade 10, c7Trade 10, c7Trade 10,
   c7Trade 30, c7Trade 30, c7Trade 30, c7Trade 30, c7Trade 30]

/-- C7, witness: on a fresh ticker with 10 recent trades and no existing
baseline row, the insert path raises the TypeError. -/
theorem C7_baseline_insert_type_error_witness :
    calculate_baseline c7Trades [] 0 "T" 30 0 10
      = .error (.typeError
          "avg_price is an invalid keyword argument for Baseline") := by
  have hfil : baselineTrades c7Trades 0 "T" 30 = c7Trades := by
    unfold baselineTrades
    apply List.filter_eq_self.mpr
    intro t ht
    simp only [c7Trades, List.mem_cons, List.not_mem_nil, or_false] at ht
    rcases ht with h | h | h | h | h | h | h | h | h | h <;> subst h <;>
      simp [c7Trade] <;> norm_num
  have h10 : ¬ (baselineTrades c7Trades 0 "T" 30).length < 10 := by
    rw [hfil]
    simp [c7Trades]
  have hsv : (0 : ℚ) ≤ 0 ∧ (0 : ℚ) ^ 2
      = popVariance ((baselineTrades c7Trades 0 "T" 30).map
          (fun t => (t.volume : ℚ))) := by
    rw [hfil]
    norm_num [popVariance, mean, c7Trades, c7Trade]
  have hsp : (0 : ℚ) ≤ 10 ∧ (10 : ℚ) ^ 2
      = popVariance ((baselineTrades c7Trades 0 "T" 30).map
          (fun t => t.price)) := by
    rw [hfil]
    norm_num [popVariance, mean, c7Trades, c7Trade]
  exact (C7_baseline_insert_type_error c7Trades [] 0 "T" 30 0 10
    hsv hsp).2.1 h10 rfl

end KalshiAD
